import Mathlib

/-!
Verification development for the firefly retirement-planning engine.

The Python source is shallowly embedded: Python floats are modelled as
exact rationals (`ℚ`), Python `int` as `ℤ`/`ℕ`, fallible constructs keep
their source semantics, and `numpy`'s globally seeded random generator is
modelled as an explicit state threaded through the sampling functions,
with the underlying unit-normal draw stream kept abstract (a function
parameter `gauss`).  Division by zero in `ℚ` yields `0` (Lean's junk-value
convention); every theorem below that touches a division states the
side conditions it needs.
-/

namespace Firefly

/-- Python `int(x)` truncation toward zero, on rationals. -/
def ratTrunc (q : ℚ) : ℤ := if 0 ≤ q then ⌊q⌋ else -⌊-q⌋

/-- Python truthiness of an `Optional[float]`: `None` and `0.0` are falsy.
Used to embed `if self.estimated_social_security:` and `x or 0`. -/
def optTruthy (o : Option ℚ) : Bool :=
  match o with
  | none => false
  | some s => s != 0

/-- Value of `x or 0` for `x : Optional[float]` in Python. -/
def orZero (o : Option ℚ) : ℚ := if optTruthy o then o.getD 0 else 0

namespace FinancialCalculator

/-- Embeds `FinancialCalculator.future_value` (financial_calculator.py,
lines 17–30): `present_value * (1 + rate) ** periods`.  The source
performs no argument validation whatsoever. -/
def future_value (present_value rate : ℚ) (periods : ℤ) : ℚ :=
  present_value * (1 + rate) ^ periods

/-- Embeds `FinancialCalculator.present_value` (lines 32–45). -/
def present_value (fv rate : ℚ) (periods : ℤ) : ℚ :=
  fv / (1 + rate) ^ periods

/-- Embeds `FinancialCalculator.future_value_annuity` (lines 47–62). -/
def future_value_annuity (payment rate : ℚ) (periods : ℤ) : ℚ :=
  if rate = 0 then payment * periods
  else payment * (((1 + rate) ^ periods - 1) / rate)

/-- Embeds `FinancialCalculator.present_value_annuity` (lines 64–79). -/
def present_value_annuity (payment rate : ℚ) (periods : ℤ) : ℚ :=
  if rate = 0 then payment * periods
  else payment * (1 - (1 + rate) ^ (-periods)) / rate

/-- Embeds `FinancialCalculator.payment_annuity` (lines 81–96). -/
def payment_annuity (present_value rate : ℚ) (periods : ℤ) : ℚ :=
  if rate = 0 then present_value / periods
  else present_value * rate / (1 - (1 + rate) ^ (-periods))

end FinancialCalculator

/-- Embeds the `FinancialProfile` dataclass (financial_data.py).  The
source stores a `birth_date` and derives `age` from the real-time clock
(`date.today()`); the clock is not embeddable, so the derived `age` is
stored directly.  The account and debt dictionaries are kept as their
lists of balances, since the engine only ever reads `.values()` sums. -/
structure FinancialProfile where
  name : String
  age : ℤ
  retirement_age : ℤ
  annual_income : ℚ
  income_growth_rate : ℚ
  monthly_expenses : ℚ
  expense_growth_rate : ℚ
  current_savings : ℚ
  monthly_savings : ℚ
  investment_accounts : List ℚ
  retirement_accounts : List ℚ
  debts : List ℚ

/-- The `__post_init__` validation: profiles with negative income,
expenses, or savings cannot be constructed. -/
def FinancialProfile.valid (p : FinancialProfile) : Prop :=
  0 ≤ p.annual_income ∧ 0 ≤ p.monthly_expenses ∧ 0 ≤ p.current_savings

/-- `total_assets` property: savings plus all account balances. -/
def FinancialProfile.total_assets (p : FinancialProfile) : ℚ :=
  p.current_savings + p.investment_accounts.sum + p.retirement_accounts.sum

/-- `total_debts` property. -/
def FinancialProfile.total_debts (p : FinancialProfile) : ℚ := p.debts.sum

/-- `annual_expenses` property: `monthly_expenses * 12`. -/
def FinancialProfile.annual_expenses (p : FinancialProfile) : ℚ :=
  p.monthly_expenses * 12

/-- Embeds the `RetirementPlan` dataclass (retirement_plan.py).  The
source field `target_income_replacement_ratio` is renamed to
`target_income_replacement_frac` here. -/
structure RetirementPlan where
  target_retirement_age : ℤ
  target_annual_income : ℚ
  target_income_replacement_frac : ℚ
  inflation_rate : ℚ
  investment_return_rate : ℚ
  withdrawal_rate : ℚ
  estimated_social_security : Option ℚ

/-- The retirement income targeted by the plan: the absolute target when
positive, otherwise the replacement fraction of current income
(retirement_plan.py, lines 42–46). -/
def RetirementPlan.targetIncome (pl : RetirementPlan) (p : FinancialProfile) : ℚ :=
  if pl.target_annual_income > 0 then pl.target_annual_income
  else p.annual_income * pl.target_income_replacement_frac

/-- The net income the portfolio must provide: target income minus the
Social-Security offset when that field is truthy (lines 49–51). -/
def RetirementPlan.netIncomeNeeded (pl : RetirementPlan) (p : FinancialProfile) : ℚ :=
  if optTruthy pl.estimated_social_security then
    pl.targetIncome p - pl.estimated_social_security.getD 0
  else pl.targetIncome p

/-- Embeds `RetirementPlan.calculate_required_portfolio_value`
(retirement_plan.py, lines 31–54). -/
def RetirementPlan.calculate_required_portfolio_value
    (pl : RetirementPlan) (p : FinancialProfile) : ℚ :=
  pl.netIncomeNeeded p / pl.withdrawal_rate

/-- Embeds `RetirementPlan.calculate_monthly_savings_needed`
(retirement_plan.py, lines 56–92).  The loop-free source computes the
required portfolio, returns 0 once `years_to_retirement ≤ 0`, then
works through the future-value-of-annuity inversion. -/
def RetirementPlan.calculate_monthly_savings_needed
    (pl : RetirementPlan) (p : FinancialProfile) : ℚ :=
  let required_portfolio := pl.calculate_required_portfolio_value p
  let current_assets := p.total_assets
  let years_to_retirement := pl.target_retirement_age - p.age
  if years_to_retirement ≤ 0 then 0
  else
    let future_value_current :=
      current_assets * (1 + pl.investment_return_rate) ^ years_to_retirement.toNat
    let net_additional_needed := max 0 (required_portfolio - future_value_current)
    if net_additional_needed = 0 then 0
    else
      let monthly_rate := pl.investment_return_rate / 12
      let months : ℕ := years_to_retirement.toNat * 12
      if monthly_rate = 0 then net_additional_needed / months
      else net_additional_needed / ((((1 + monthly_rate) ^ months) - 1) / monthly_rate)

/-- Embeds `RetirementPlan.calculate_retirement_readiness_score`
(retirement_plan.py, lines 107–145). -/
def RetirementPlan.calculate_retirement_readiness_score
    (pl : RetirementPlan) (p : FinancialProfile) : ℚ :=
  let required_portfolio := pl.calculate_required_portfolio_value p
  let current_assets := p.total_assets
  if required_portfolio = 0 then 100
  else
    let years_to_retirement := pl.target_retirement_age - p.age
    if years_to_retirement ≤ 0 then
      min 100 (current_assets / required_portfolio * 100)
    else
      let monthly_rate := pl.investment_return_rate / 12
      let months : ℕ := years_to_retirement.toNat * 12
      let future_current :=
        current_assets * (1 + pl.investment_return_rate) ^ years_to_retirement.toNat
      let future_savings :=
        if monthly_rate > 0 ∧ p.monthly_savings > 0 then
          p.monthly_savings * (((1 + monthly_rate) ^ months - 1) / monthly_rate)
        else p.monthly_savings * months
      min 100 ((future_current + future_savings) / required_portfolio * 100)

/-- A concrete, `__post_init__`-valid profile used in several concrete
instantiations below. -/
def cProfile : FinancialProfile where
  name := "c"
  age := 65
  retirement_age := 65
  annual_income := 0
  income_growth_rate := 0
  monthly_expenses := 0
  expense_growth_rate := 0
  current_savings := 100
  monthly_savings := 0
  investment_accounts := []
  retirement_accounts := []
  debts := []

/-- A plan whose Social-Security estimate exceeds its target income, so
the net income needed — and with it the required portfolio — is negative. -/
def cPlanNegRequired : RetirementPlan where
  target_retirement_age := 65
  target_annual_income := 5
  target_income_replacement_frac := 8/10
  inflation_rate := 1/40
  investment_return_rate := 7/100
  withdrawal_rate := 1/25
  estimated_social_security := some 10

/-- Same plan with a smaller (still positive) withdrawal rate. -/
def cPlanNegRequiredLowWr : RetirementPlan :=
  { cPlanNegRequired with withdrawal_rate := 1/50 }

/-- A plan with a positive net income needed (target 50, Social
Security 10, withdrawal rate 1/25), used for witnesses. -/
def wPlan : RetirementPlan :=
  { cPlanNegRequired with target_annual_income := 50 }

/-- One row of a projection time series (retirement_projector.py,
lines 15–26). -/
structure YearlyProjection where
  year : ℤ
  age : ℤ
  portfolio_value : ℚ
  annual_contribution : ℚ
  annual_return : ℚ
  expenses : ℚ
  net_worth : ℚ

/-- Aggregate projection result (retirement_projector.py, lines 29–39). -/
structure RetirementProjection where
  yearly_projections : List YearlyProjection
  total_contributions : ℚ
  total_returns : ℚ
  final_portfolio_value : ℚ
  retirement_feasible : Bool
  years_of_retirement_funded : ℤ

/-- The mutable local state of the accumulation loop in
`project_to_retirement` (retirement_projector.py, lines 65–104). -/
structure AccumState where
  portfolio_value : ℚ
  annual_contribution : ℚ
  annual_expenses : ℚ
  total_contributions : ℚ
  total_returns : ℚ
  rows : List YearlyProjection

/-- One iteration of the accumulation loop at a given `year_offset`
(retirement_projector.py, lines 75–104): return, then contribution and
return added to the portfolio, then growth applied to contribution and
expenses for every offset after the first, then totals and the row —
note the row records the already-grown contribution and expenses, as
the source mutates before appending. -/
def accumStep (p : FinancialProfile) (pl : RetirementPlan)
    (year_offset : ℕ) (st : AccumState) : AccumState :=
  let annual_return := st.portfolio_value * pl.investment_return_rate
  let portfolio := st.portfolio_value + st.annual_contribution + annual_return
  let contribution :=
    if 0 < year_offset then st.annual_contribution * (1 + p.income_growth_rate)
    else st.annual_contribution
  let expenses :=
    if 0 < year_offset then st.annual_expenses * (1 + p.expense_growth_rate)
    else st.annual_expenses
  { portfolio_value := portfolio
    annual_contribution := contribution
    annual_expenses := expenses
    total_contributions := st.total_contributions + contribution
    total_returns := st.total_returns + annual_return
    rows := st.rows ++ [{ year := 2024 + (year_offset : ℤ)
                          age := p.age + (year_offset : ℤ)
                          portfolio_value := portfolio
                          annual_contribution := contribution
                          annual_return := annual_return
                          expenses := expenses
                          net_worth := portfolio - p.total_debts }] }

/-- Runs the accumulation loop for the given number of remaining
iterations, starting at `year_offset`. -/
def accumGo (p : FinancialProfile) (pl : RetirementPlan) :
    ℕ → ℕ → AccumState → AccumState
  | 0, _, st => st
  | n + 1, off, st => accumGo p pl n (off + 1) (accumStep p pl off st)

/-- Number of iterations of the accumulation loop:
`range(target_retirement_age - current_age + 1)` — empty when the bound
is non-positive, exactly like Python's `range`. -/
def loopCount (p : FinancialProfile) (pl : RetirementPlan) : ℕ :=
  (pl.target_retirement_age - p.age + 1).toNat

/-- Loop state on entry (retirement_projector.py, lines 65–72). -/
def accumInit (p : FinancialProfile) : AccumState :=
  { portfolio_value := p.total_assets
    annual_contribution := p.monthly_savings * 12
    annual_expenses := p.annual_expenses
    total_contributions := 0
    total_returns := 0
    rows := [] }

/-- Embeds `RetirementProjector.project_to_retirement`
(retirement_projector.py, lines 58–126). -/
def project_to_retirement (p : FinancialProfile) (pl : RetirementPlan) :
    RetirementProjection :=
  let final := accumGo p pl (loopCount p pl) 0 (accumInit p)
  let required := pl.calculate_required_portfolio_value p
  let retirement_expenses :=
    if optTruthy pl.estimated_social_security then
      final.annual_expenses - pl.estimated_social_security.getD 0
    else final.annual_expenses
  { yearly_projections := final.rows
    total_contributions := final.total_contributions
    total_returns := final.total_returns
    final_portfolio_value := final.portfolio_value
    retirement_feasible := decide (required ≤ final.portfolio_value)
    years_of_retirement_funded :=
      if 0 < retirement_expenses then
        ratTrunc (final.portfolio_value / retirement_expenses)
      else 0 }

/-- The annual expenses held by the accumulation loop on exit, in
closed form: grown once per iteration after the first. -/
def finalAccumExpenses (p : FinancialProfile) (pl : RetirementPlan) : ℚ :=
  p.annual_expenses * (1 + p.expense_growth_rate) ^ (loopCount p pl - 1)

/-- Net yearly retirement expense figure used for the funded-years
count: loop-exit expenses minus the Social-Security offset. -/
def retirementNetExpenses (p : FinancialProfile) (pl : RetirementPlan) : ℚ :=
  finalAccumExpenses p pl - orZero pl.estimated_social_security

/-- One iteration of the withdrawal loop (retirement_projector.py,
lines 161–188): returns added, withdrawal subtracted, the withdrawal
need inflated, then the row recorded (with the already-inflated need,
as in the source) and the loop stopped once the portfolio is ≤ 0. -/
def withdrawLoop (rate infl ssRep : ℚ) :
    ℕ → ℤ → ℤ → ℚ → ℚ → List YearlyProjection
  | 0, _, _, _, _ => []
  | n + 1, year, age, pv, net =>
    let annual_return := pv * rate
    let pv' := pv + annual_return - net
    let net' := net * (1 + infl)
    let row : YearlyProjection :=
      { year := year
        age := age
        portfolio_value := max 0 pv'
        annual_contribution := -net'
        annual_return := annual_return
        expenses := net' + ssRep
        net_worth := max 0 pv' }
    if pv' ≤ 0 then [row]
    else row :: withdrawLoop rate infl ssRep n (year + 1) (age + 1) pv' net'

/-- The net withdrawal need entering the withdrawal loop
(retirement_projector.py, lines 142–157): expenses inflated to the
retirement start year, minus the similarly inflated Social-Security
offset when truthy.  `(1 + inflation) ** years_to_retirement` is a
Python int-exponent power, so a `zpow`. -/
def withdrawStartNet (p : FinancialProfile) (pl : RetirementPlan) : ℚ :=
  let ytr : ℤ := pl.target_retirement_age - p.age
  let inflFactor : ℚ := (1 + pl.inflation_rate) ^ ytr
  if optTruthy pl.estimated_social_security then
    p.annual_expenses * inflFactor - pl.estimated_social_security.getD 0 * inflFactor
  else p.annual_expenses * inflFactor

/-- Embeds `RetirementProjector.project_retirement_withdrawal`
(retirement_projector.py, lines 128–190). -/
def project_retirement_withdrawal (p : FinancialProfile) (pl : RetirementPlan)
    (years_in_retirement : ℕ) : List YearlyProjection :=
  withdrawLoop pl.investment_return_rate pl.inflation_rate
    (orZero pl.estimated_social_security) years_in_retirement
    (2024 + (pl.target_retirement_age - p.age)) pl.target_retirement_age
    (project_to_retirement p pl).final_portfolio_value (withdrawStartNet p pl)

/-- Scalar model of one withdrawal-loop step on (portfolio, net need). -/
def wNext (rate infl : ℚ) (s : ℚ × ℚ) : ℚ × ℚ :=
  (s.1 + s.1 * rate - s.2, s.2 * (1 + infl))

/-- Portfolio value after withdrawal year `k` (0-based) from a given
starting (portfolio, net need) pair. -/
def pvAfter (rate infl : ℚ) (pv net : ℚ) (k : ℕ) : ℚ :=
  ((wNext rate infl)^[k + 1] (pv, net)).1

/-- The state of numpy's process-global random generator, abstracted:
a seed and the number of draws made since seeding.  The unit-normal
value of draw number `k` under seed `s` is `gauss s k` for an arbitrary
fixed stream `gauss`, kept as an explicit parameter. -/
structure NpRandomState where
  seedVal : ℕ
  drawCount : ℕ

/-- `np.random.seed(n)`: resets the global state, discarding it. -/
def npSeed (n : ℕ) (_g : NpRandomState) : NpRandomState := ⟨n, 0⟩

/-- `np.random.normal(mu, sigma)`: the next stream draw scaled and
shifted, plus the advanced state. -/
def npNormal (gauss : ℕ → ℕ → ℚ) (mu sigma : ℚ) (g : NpRandomState) :
    ℚ × NpRandomState :=
  (mu + sigma * gauss g.seedVal g.drawCount, ⟨g.seedVal, g.drawCount + 1⟩)

/-- The per-trial accumulation loop of `monte_carlo_retirement_analysis`
(retirement_projector.py, lines 218–228): a sampled return rate each
year, contribution growth after every year including the first. -/
def mcAccumYears (gauss : ℕ → ℕ → ℚ) (rate vol growth : ℚ) :
    ℕ → ℚ × ℚ × NpRandomState → ℚ × ℚ × NpRandomState
  | 0, s => s
  | n + 1, (pv, c, g) =>
    let s := npNormal gauss rate vol g
    mcAccumYears gauss rate vol growth n
      (pv + c + pv * s.1, c * (1 + growth), s.2)

/-- The trial loop of `monte_carlo_retirement_analysis` (lines 212–235),
threading the random state and collecting success count and final
values in order. -/
def mcTrials (gauss : ℕ → ℕ → ℚ) (p : FinancialProfile) (pl : RetirementPlan)
    (vol : ℚ) : ℕ → NpRandomState → ℕ → List ℚ → ℕ × List ℚ × NpRandomState
  | 0, g, succ, finals => (succ, finals, g)
  | n + 1, g, succ, finals =>
    let t := mcAccumYears gauss pl.investment_return_rate vol p.income_growth_rate
      (pl.target_retirement_age - p.age).toNat (p.total_assets, p.monthly_savings * 12, g)
    let required := pl.calculate_required_portfolio_value p
    mcTrials gauss p pl vol n t.2.2
      (if required ≤ t.1 then succ + 1 else succ) (finals ++ [t.1])

/-- The list of trial-final portfolio values produced by
`monte_carlo_retirement_analysis` before sorting. -/
def mcFinalValues (gauss : ℕ → ℕ → ℚ) (p : FinancialProfile)
    (pl : RetirementPlan) (vol : ℚ) (sims : ℕ) (g : NpRandomState) : List ℚ :=
  (mcTrials gauss p pl vol sims (npSeed 42 g) 0 []).2.1

/-- The result dictionary of `monte_carlo_retirement_analysis`
(retirement_projector.py, lines 240–247). -/
structure MCRetirementAnalysis where
  success_rate : ℚ
  median_final_value : ℚ
  percentile_10 : ℚ
  percentile_90 : ℚ
  required_portfolio_value : ℚ
  simulations_run : ℕ

/-- Embeds `RetirementProjector.monte_carlo_retirement_analysis`
(retirement_projector.py, lines 192–247).  `int(len * 0.1)` and
`int(len * 0.9)` are modelled as the exact floor divisions `len / 10`
and `len * 9 / 10`. -/
def monte_carlo_retirement_analysis (gauss : ℕ → ℕ → ℚ)
    (p : FinancialProfile) (pl : RetirementPlan)
    (sims : ℕ) (vol : ℚ) (g : NpRandomState) : MCRetirementAnalysis :=
  let r := mcTrials gauss p pl vol sims (npSeed 42 g) 0 []
  let sorted := r.2.1.mergeSort fun a b => decide (a ≤ b)
  { success_rate := (r.1 : ℚ) / (sims : ℚ)
    median_final_value := sorted.getD (sorted.length / 2) 0
    percentile_10 := sorted.getD (sorted.length / 10) 0
    percentile_90 := sorted.getD (sorted.length * 9 / 10) 0
    required_portfolio_value := pl.calculate_required_portfolio_value p
    simulations_run := sims }

/-- The deterministic recursion a volatility-0 trial follows:
`target_retirement_age - age` steps, contribution grown after every
step (including the first) — the mechanics of the Monte Carlo trial
loop, not of `project_to_retirement`. -/
def mcDetAccumGo (rate growth : ℚ) : ℕ → ℚ × ℚ → ℚ × ℚ
  | 0, s => s
  | n + 1, (pv, c) => mcDetAccumGo rate growth n (pv + c + pv * rate, c * (1 + growth))

/-- Final value of the volatility-0 trial recursion for a profile/plan. -/
def mcDetAccum (p : FinancialProfile) (pl : RetirementPlan) : ℚ :=
  (mcDetAccumGo pl.investment_return_rate p.income_growth_rate
    (pl.target_retirement_age - p.age).toNat
    (p.total_assets, p.monthly_savings * 12)).1

/-- The per-trial year loop of `FinancialCalculator.monte_carlo_projection`
(financial_calculator.py, lines 201–208). -/
def mcProjYears (gauss : ℕ → ℕ → ℚ) (annual_return vol contribution : ℚ) :
    ℕ → ℚ × NpRandomState → ℚ × NpRandomState
  | 0, s => s
  | n + 1, (value, g) =>
    let s := npNormal gauss annual_return vol g
    mcProjYears gauss annual_return vol contribution n
      (value * (1 + s.1) + contribution, s.2)

/-- The trial loop of `monte_carlo_projection`. -/
def mcProjTrials (gauss : ℕ → ℕ → ℚ) (initial annual_return vol contribution : ℚ)
    (years : ℕ) : ℕ → NpRandomState → List ℚ → List ℚ × NpRandomState
  | 0, g, finals => (finals, g)
  | n + 1, g, finals =>
    let t := mcProjYears gauss annual_return vol contribution years (initial, g)
    mcProjTrials gauss initial annual_return vol contribution years n t.2
      (finals ++ [t.1])

/-- Embeds `FinancialCalculator.monte_carlo_projection`
(financial_calculator.py, lines 175–215): returns the sorted final
values, the median, and the `int(len * 0.1)`-indexed (10th percentile)
value. -/
def monte_carlo_projection (gauss : ℕ → ℕ → ℚ)
    (initial annual_return vol : ℚ) (years : ℕ) (contribution : ℚ)
    (sims : ℕ) (g : NpRandomState) : List ℚ × ℚ × ℚ :=
  let r := mcProjTrials gauss initial annual_return vol contribution years sims
    (npSeed 42 g) []
  let sorted := r.1.mergeSort fun a b => decide (a ≤ b)
  (sorted, sorted.getD (sorted.length / 2) 0, sorted.getD (sorted.length / 10) 0)

/-- A plan whose target retirement age lies strictly below the concrete
profile's age of 65. -/
def cPlanYoungTarget : RetirementPlan :=
  { cPlanNegRequired with target_retirement_age := 64 }

/-- A valid profile one year from retirement with a 100% expense growth
rate, 48000 of savings, and no income or contributions. -/
def cProfileGrow : FinancialProfile where
  name := "g"
  age := 30
  retirement_age := 65
  annual_income := 0
  income_growth_rate := 0
  monthly_expenses := 1000
  expense_growth_rate := 1
  current_savings := 48000
  monthly_savings := 0
  investment_accounts := []
  retirement_accounts := []
  debts := []

/-- A retire-at-31 plan with zero return and inflation and no Social
Security. -/
def cPlanGrow : RetirementPlan where
  target_retirement_age := 31
  target_annual_income := 1
  target_income_replacement_frac := 8/10
  inflation_rate := 0
  investment_return_rate := 0
  withdrawal_rate := 1/25
  estimated_social_security := none

/-- A valid profile (age 30, 100 in savings, no contributions) for the
Monte Carlo comparison. -/
def cProfileMC : FinancialProfile where
  name := "m"
  age := 30
  retirement_age := 65
  annual_income := 0
  income_growth_rate := 0
  monthly_expenses := 0
  expense_growth_rate := 0
  current_savings := 100
  monthly_savings := 0
  investment_accounts := []
  retirement_accounts := []
  debts := []

/-- A retire-at-31 plan with a 10% return rate for the Monte Carlo
comparison. -/
def cPlanMC : RetirementPlan where
  target_retirement_age := 31
  target_annual_income := 1
  target_income_replacement_frac := 8/10
  inflation_rate := 0
  investment_return_rate := 1/10
  withdrawal_rate := 1/25
  estimated_social_security := none

/-- A concrete everywhere-zero unit-normal stream (irrelevant at
volatility 0, where the scale multiplies every draw by 0). -/
def gauss0 : ℕ → ℕ → ℚ := fun _ _ => 0

/-- An arbitrary concrete incoming global random state. -/
def g0 : NpRandomState := ⟨0, 0⟩

/-- A valid profile already at retirement age with 100 of savings and
12000 of annual expenses. -/
def cProfileW : FinancialProfile where
  name := "w"
  age := 65
  retirement_age := 65
  annual_income := 0
  income_growth_rate := 0
  monthly_expenses := 1000
  expense_growth_rate := 0
  current_savings := 100
  monthly_savings := 0
  investment_accounts := []
  retirement_accounts := []
  debts := []

/-- A retire-at-65 plan with zero return and inflation and no Social
Security: the 12000 withdrawal need depletes the 100 portfolio in the
very first withdrawal year. -/
def cPlanW : RetirementPlan where
  target_retirement_age := 65
  target_annual_income := 1
  target_income_replacement_frac := 8/10
  inflation_rate := 0
  investment_return_rate := 0
  withdrawal_rate := 1/25
  estimated_social_security := none

end Firefly

/-- C1.  The spec claims `future_value(pv, rate, periods)` fails with
InvalidArgument when `pv < 0` or `periods < 0`, and the repository's own
tests (test_financial_calculator.py, lines 87–95, and the BDD step
definitions) assert a `ValueError` at exactly `future_value(-1, 0.07, 10)`
and `future_value(1000, 0.07, -5)`.  The code contains no check at all:
evaluated at both "failing" inputs it returns ordinary finite values. -/
theorem future_value_missing_validation_code_bug :
    Firefly.FinancialCalculator.future_value (-1) (7/100) 10
      = -((107/100 : ℚ) ^ (10 : ℕ)) ∧
    Firefly.FinancialCalculator.future_value 1000 (7/100) (-5)
      = 1000 / ((107/100 : ℚ) ^ (5 : ℕ)) := by
  unfold Firefly.FinancialCalculator.future_value
  constructor
  · norm_num
  · norm_num [zpow_neg, div_eq_mul_inv]

/-- C7.  At `rate = 0` every annuity primitive takes its exact
non-dividing branch: `future_value_annuity(payment, 0, n) = payment·n`,
`present_value_annuity(payment, 0, n) = payment·n`, and
`payment_annuity(pv, 0, n)` divides `pv` evenly over the `n` periods
(for `n ≠ 0`), so the rate→0 limiting identity holds exactly. -/
theorem annuity_zero_rate_exact (payment pv : ℚ) (n : ℤ) (hn : n ≠ 0) :
    Firefly.FinancialCalculator.future_value_annuity payment 0 n = payment * n ∧
    Firefly.FinancialCalculator.present_value_annuity payment 0 n = payment * n ∧
    Firefly.FinancialCalculator.payment_annuity pv 0 n * n = pv := by
  refine ⟨by simp [Firefly.FinancialCalculator.future_value_annuity], ?_, ?_⟩
  · simp [Firefly.FinancialCalculator.present_value_annuity]
  · have hn' : (n : ℚ) ≠ 0 := Int.cast_ne_zero.mpr hn
    simp [Firefly.FinancialCalculator.payment_annuity, div_mul_cancel₀ pv hn']

open Firefly

/-- `netIncomeNeeded` always equals target income minus the truthiness
value of the Social-Security field. -/
theorem netIncomeNeeded_eq (pl : RetirementPlan) (p : FinancialProfile) :
    pl.netIncomeNeeded p = pl.targetIncome p - orZero pl.estimated_social_security := by
  unfold RetirementPlan.netIncomeNeeded orZero
  cases h : optTruthy pl.estimated_social_security <;> simp [h]

/-- Unfolded form of the required-portfolio computation. -/
theorem required_eq (pl : RetirementPlan) (p : FinancialProfile) :
    pl.calculate_required_portfolio_value p
      = (pl.targetIncome p - orZero pl.estimated_social_security) / pl.withdrawal_rate := by
  unfold RetirementPlan.calculate_required_portfolio_value
  rw [netIncomeNeeded_eq]

/-- Python's `x or 0` on a present value is the value itself, whether or
not it is zero. -/
theorem orZero_some (s : ℚ) : orZero (some s) = s := by
  by_cases h : s = 0 <;> simp [orZero, optTruthy, h]

/-- Witness for C7 at `payment = 3`, `pv = 12`, `n = 4`. -/
theorem annuity_zero_rate_exact_witness :
    Firefly.FinancialCalculator.future_value_annuity 3 0 4 = 3 * 4 ∧
    Firefly.FinancialCalculator.present_value_annuity 3 0 4 = 3 * 4 ∧
    Firefly.FinancialCalculator.payment_annuity 12 0 4 * 4 = 12 := by
  have h := annuity_zero_rate_exact 3 12 4 (by decide)
  exact ⟨by exact_mod_cast h.1, by exact_mod_cast h.2.1, by exact_mod_cast h.2.2⟩

/-- C9.  Whenever the profile's current age is at or past the plan's
target retirement age, `calculate_monthly_savings_needed` returns
exactly 0, regardless of how far total assets fall below the required
portfolio value (retirement_plan.py, lines 70–72). -/
theorem calculate_monthly_savings_needed_zero_when_retired
    (p : FinancialProfile) (pl : RetirementPlan)
    (h : pl.target_retirement_age ≤ p.age) :
    pl.calculate_monthly_savings_needed p = 0 := by
  unfold RetirementPlan.calculate_monthly_savings_needed
  have hy : pl.target_retirement_age - p.age ≤ 0 := by omega
  simp [hy]

/-- Witness for C9: a 65-year-old profile against a retire-at-65 plan
whose required portfolio (125 × net income) far exceeds the profile's
100 in assets. -/
theorem calculate_monthly_savings_needed_zero_when_retired_witness :
    RetirementPlan.calculate_monthly_savings_needed cPlanNegRequired cProfile = 0 :=
  calculate_monthly_savings_needed_zero_when_retired cProfile cPlanNegRequired (by decide)

/-- C3 counterexample: a constructible (validation-passing) profile and
a plan whose Social-Security estimate exceeds its target income give a
negative required portfolio, and the readiness score comes out negative
(−80), outside the claimed interval [0, 100]: the code only clamps from
above with `min(100.0, ·)`, never from below. -/
theorem readiness_score_below_zero_counterexample :
    cProfile.valid ∧
    RetirementPlan.calculate_retirement_readiness_score cPlanNegRequired cProfile < 0 := by
  constructor
  · refine ⟨by norm_num [cProfile], by norm_num [cProfile], by norm_num [cProfile]⟩
  · norm_num [RetirementPlan.calculate_retirement_readiness_score,
      RetirementPlan.calculate_required_portfolio_value, RetirementPlan.netIncomeNeeded,
      RetirementPlan.targetIncome, optTruthy, FinancialProfile.total_assets,
      cProfile, cPlanNegRequired, min_def]

/-- C3 (amended).  The readiness score is clamped to at most 100 for
every Profile/Plan pair; it is additionally at least 0 — hence within
[0, 100] — whenever the required portfolio value is positive, total
assets and monthly savings are non-negative, and the return rate is at
least −1.  (It can go below 0 when the required portfolio is negative,
as the counterexample shows.) -/
theorem readiness_score_bounds (pl : RetirementPlan) (p : FinancialProfile) :
    pl.calculate_retirement_readiness_score p ≤ 100 ∧
    (0 < pl.calculate_required_portfolio_value p → 0 ≤ p.total_assets →
      0 ≤ p.monthly_savings → -1 ≤ pl.investment_return_rate →
      0 ≤ pl.calculate_retirement_readiness_score p) := by
  constructor
  · simp only [RetirementPlan.calculate_retirement_readiness_score]
    split_ifs <;> first | norm_num | exact min_le_left _ _
  · intro hreq hassets hms hrate
    simp only [RetirementPlan.calculate_retirement_readiness_score]
    split_ifs with h1 h2 h3
    · norm_num
    · exact le_min (by norm_num)
        (mul_nonneg (div_nonneg hassets hreq.le) (by norm_num))
    · refine le_min (by norm_num) (mul_nonneg (div_nonneg ?_ hreq.le) (by norm_num))
      refine add_nonneg (mul_nonneg hassets (pow_nonneg (by linarith) _)) ?_
      exact mul_nonneg hms
        (div_nonneg (sub_nonneg.mpr (one_le_pow₀ (by linarith [h3.1]))) h3.1.le)
    · refine le_min (by norm_num) (mul_nonneg (div_nonneg ?_ hreq.le) (by norm_num))
      refine add_nonneg (mul_nonneg hassets (pow_nonneg (by linarith) _)) ?_
      exact mul_nonneg hms (Nat.cast_nonneg _)

/-- Witness for C3's amended bound at a concrete positive-required-value
input: the plan targeting 50 of income with a 10 Social-Security offset
against the valid concrete profile. -/
theorem readiness_score_bounds_witness :
    RetirementPlan.calculate_retirement_readiness_score wPlan cProfile ≤ 100 ∧
    0 ≤ RetirementPlan.calculate_retirement_readiness_score wPlan cProfile := by
  obtain ⟨hu, hl⟩ := readiness_score_bounds wPlan cProfile
  refine ⟨hu, hl ?_ ?_ ?_ ?_⟩
  · norm_num [RetirementPlan.calculate_required_portfolio_value,
      RetirementPlan.netIncomeNeeded, RetirementPlan.targetIncome, optTruthy,
      wPlan, cPlanNegRequired]
  · norm_num [FinancialProfile.total_assets, cProfile]
  · norm_num [cProfile]
  · norm_num [wPlan, cPlanNegRequired]

/-- C8 counterexample: with a negative net income needed (Social
Security above target income), lowering the withdrawal rate from 1/25
to 1/50 — both positive — strictly *lowers* the required portfolio
value (−125 to −250), contradicting the claimed monotonicity for every
Profile/Plan pair. -/
theorem required_portfolio_monotonic_counterexample :
    (0:ℚ) < cPlanNegRequiredLowWr.withdrawal_rate ∧
    cPlanNegRequiredLowWr.withdrawal_rate < cPlanNegRequired.withdrawal_rate ∧
    RetirementPlan.calculate_required_portfolio_value cPlanNegRequiredLowWr cProfile
      < RetirementPlan.calculate_required_portfolio_value cPlanNegRequired cProfile := by
  refine ⟨by norm_num [cPlanNegRequiredLowWr, cPlanNegRequired],
    by norm_num [cPlanNegRequiredLowWr, cPlanNegRequired], ?_⟩
  norm_num [RetirementPlan.calculate_required_portfolio_value,
    RetirementPlan.netIncomeNeeded, RetirementPlan.targetIncome, optTruthy,
    cProfile, cPlanNegRequired, cPlanNegRequiredLowWr]

/-- C8 (amended).  With a positive withdrawal rate the required
portfolio value is strictly monotonic as claimed: increasing the target
annual income (over positive targets) increases it; decreasing the
withdrawal rate increases it provided the net income needed is
positive; and decreasing the Social-Security estimate increases it. -/
theorem required_portfolio_monotonic (p : FinancialProfile) (pl : RetirementPlan) :
    (∀ t₁ t₂ : ℚ, 0 < pl.withdrawal_rate → 0 < t₁ → t₁ < t₂ →
      RetirementPlan.calculate_required_portfolio_value
          { pl with target_annual_income := t₁ } p
        < RetirementPlan.calculate_required_portfolio_value
          { pl with target_annual_income := t₂ } p) ∧
    (∀ w₁ w₂ : ℚ, 0 < w₁ → w₁ < w₂ → 0 < pl.netIncomeNeeded p →
      RetirementPlan.calculate_required_portfolio_value
          { pl with withdrawal_rate := w₂ } p
        < RetirementPlan.calculate_required_portfolio_value
          { pl with withdrawal_rate := w₁ } p) ∧
    (∀ s₁ s₂ : ℚ, 0 < pl.withdrawal_rate → s₁ < s₂ →
      RetirementPlan.calculate_required_portfolio_value
          { pl with estimated_social_security := some s₂ } p
        < RetirementPlan.calculate_required_portfolio_value
          { pl with estimated_social_security := some s₁ } p) := by
  refine ⟨?_, ?_, ?_⟩
  · intro t₁ t₂ hw h1 h2
    rw [required_eq, required_eq]
    have e1 : RetirementPlan.targetIncome { pl with target_annual_income := t₁ } p = t₁ := by
      unfold RetirementPlan.targetIncome; exact if_pos h1
    have e2 : RetirementPlan.targetIncome { pl with target_annual_income := t₂ } p = t₂ := by
      unfold RetirementPlan.targetIncome; exact if_pos (h1.trans h2)
    rw [e1, e2]
    show (t₁ - orZero pl.estimated_social_security) / pl.withdrawal_rate
      < (t₂ - orZero pl.estimated_social_security) / pl.withdrawal_rate
    exact (div_lt_div_right hw).mpr (sub_lt_sub_right h2 _)
  · intro w₁ w₂ hw1 hw12 hnet
    rw [required_eq, required_eq]
    rw [netIncomeNeeded_eq] at hnet
    show (pl.targetIncome p - orZero pl.estimated_social_security) / w₂
      < (pl.targetIncome p - orZero pl.estimated_social_security) / w₁
    exact div_lt_div_of_pos_left hnet hw1 hw12
  · intro s₁ s₂ hw h12
    rw [required_eq, required_eq]
    show (RetirementPlan.targetIncome { pl with estimated_social_security := some s₂ } p
        - orZero (some s₂)) / pl.withdrawal_rate
      < (RetirementPlan.targetIncome { pl with estimated_social_security := some s₁ } p
        - orZero (some s₁)) / pl.withdrawal_rate
    rw [orZero_some, orZero_some]
    have e : ∀ o : Option ℚ,
        RetirementPlan.targetIncome { pl with estimated_social_security := o } p
          = pl.targetIncome p := fun _ => rfl
    rw [e, e]
    exact (div_lt_div_right hw).mpr (sub_lt_sub_left h12 _)

/-- Witness for C8's amended monotonicity at the positive-net plan
`wPlan`: raising the target from 10 to 20, lowering the withdrawal rate
from 1/25 to 1/50, and lowering Social Security from 2 to 1 each
strictly raise the required portfolio value. -/
theorem required_portfolio_monotonic_witness :
    (RetirementPlan.calculate_required_portfolio_value
        { wPlan with target_annual_income := 10 } cProfile
      < RetirementPlan.calculate_required_portfolio_value
        { wPlan with target_annual_income := 20 } cProfile) ∧
    (RetirementPlan.calculate_required_portfolio_value
        { wPlan with withdrawal_rate := 1/25 } cProfile
      < RetirementPlan.calculate_required_portfolio_value
        { wPlan with withdrawal_rate := 1/50 } cProfile) ∧
    (RetirementPlan.calculate_required_portfolio_value
        { wPlan with estimated_social_security := some 2 } cProfile
      < RetirementPlan.calculate_required_portfolio_value
        { wPlan with estimated_social_security := some 1 } cProfile) := by
  obtain ⟨h1, h2, h3⟩ := required_portfolio_monotonic cProfile wPlan
  refine ⟨h1 10 20 ?_ (by norm_num) (by norm_num),
    h2 (1/50) (1/25) (by norm_num) (by norm_num) ?_,
    h3 1 2 ?_ (by norm_num)⟩
  · norm_num [wPlan, cPlanNegRequired]
  · norm_num [RetirementPlan.netIncomeNeeded, RetirementPlan.targetIncome,
      optTruthy, wPlan, cPlanNegRequired]
  · norm_num [wPlan, cPlanNegRequired]

/-- Subtracting an optional offset under Python truthiness equals
subtracting its `or 0` value. -/
theorem truthySub (x : ℚ) (o : Option ℚ) :
    (if optTruthy o then x - o.getD 0 else x) = x - orZero o := by
  cases h : optTruthy o <;> simp [orZero, h]

/-- C10.  Both Monte Carlo entry points reseed numpy's global generator
with the constant 42 before sampling, so their outputs are independent
of the incoming global random state: any two calls with equal arguments
(made from arbitrary prior states `g₁`, `g₂`) return identical sorted
final values, medians, percentile entries, and success rates, for every
possible underlying draw stream `gauss`.  Neither embedding takes a
seed argument, mirroring the source signatures. -/
theorem monte_carlo_globally_seeded_deterministic (gauss : ℕ → ℕ → ℚ)
    (initial annual_return vol contribution : ℚ) (years sims : ℕ)
    (p : FinancialProfile) (pl : RetirementPlan) (sims2 : ℕ) (vol2 : ℚ)
    (g₁ g₂ : NpRandomState) :
    monte_carlo_projection gauss initial annual_return vol years contribution sims g₁
      = monte_carlo_projection gauss initial annual_return vol years contribution sims g₂ ∧
    monte_carlo_retirement_analysis gauss p pl sims2 vol2 g₁
      = monte_carlo_retirement_analysis gauss p pl sims2 vol2 g₂ :=
  ⟨rfl, rfl⟩

/-- The accumulation loop appends exactly one row per iteration. -/
theorem accumGo_rows_length (p : FinancialProfile) (pl : RetirementPlan)
    (n : ℕ) : ∀ (off : ℕ) (st : AccumState),
    (accumGo p pl n off st).rows.length = st.rows.length + n := by
  induction n with
  | zero => intro off st; simp [accumGo]
  | succ n ih =>
    intro off st
    rw [accumGo, ih]
    simp [accumStep]
    omega

/-- The number of emitted rows equals the Python `range` length. -/
theorem project_to_retirement_rows_length (p : FinancialProfile)
    (pl : RetirementPlan) :
    (project_to_retirement p pl).yearly_projections.length = loopCount p pl := by
  simp [project_to_retirement, accumGo_rows_length, accumInit]

/-- C5 counterexample: with the target retirement age 64 strictly below
the profile's age 65 the accumulation loop is `range(0)` — it emits
zero rows, not the claimed single row. -/
theorem single_row_edge_case_counterexample :
    cPlanYoungTarget.target_retirement_age ≤ cProfile.age ∧
    (project_to_retirement cProfile cPlanYoungTarget).yearly_projections.length = 0 := by
  constructor
  · norm_num [cPlanYoungTarget, cPlanNegRequired, cProfile]
  · rw [project_to_retirement_rows_length]
    norm_num [loopCount, cPlanYoungTarget, cPlanNegRequired, cProfile]

/-- C5 (amended).  When the target retirement age is at most the current
age, the accumulation loop emits exactly one row if the two ages are
equal and zero rows if the target is strictly below the age. -/
theorem already_retired_row_count (p : FinancialProfile) (pl : RetirementPlan)
    (h : pl.target_retirement_age ≤ p.age) :
    (project_to_retirement p pl).yearly_projections.length
      = if pl.target_retirement_age = p.age then 1 else 0 := by
  rw [project_to_retirement_rows_length]
  unfold loopCount
  split_ifs with he
  · omega
  · omega

/-- Witness for C5's amended row count at target age = current age = 65:
exactly one row. -/
theorem already_retired_row_count_witness :
    (project_to_retirement cProfile cPlanNegRequired).yearly_projections.length = 1 := by
  have h := already_retired_row_count cProfile cPlanNegRequired
    (by norm_num [cProfile, cPlanNegRequired])
  simpa [cProfile, cPlanNegRequired] using h

/-- At volatility 0 every sampled return equals the mean, so a Monte
Carlo trial's year loop computes exactly the deterministic recursion
`mcDetAccumGo`, consuming one draw per year. -/
theorem mcAccumYears_vol_zero (gauss : ℕ → ℕ → ℚ) (rate growth : ℚ) (n : ℕ) :
    ∀ (pv c : ℚ) (g : NpRandomState),
      mcAccumYears gauss rate 0 growth n (pv, c, g)
        = ((mcDetAccumGo rate growth n (pv, c)).1,
           (mcDetAccumGo rate growth n (pv, c)).2,
           ⟨g.seedVal, g.drawCount + n⟩) := by
  induction n with
  | zero => intro pv c g; simp [mcAccumYears, mcDetAccumGo]
  | succ n ih =>
    intro pv c g
    simp only [mcAccumYears, npNormal, mcDetAccumGo, zero_mul, add_zero]
    rw [ih]
    have h : g.drawCount + 1 + n = g.drawCount + (n + 1) := by omega
    rw [h]

/-- At volatility 0 the trial loop appends the same deterministic final
value once per trial. -/
theorem mcTrials_vol_zero (gauss : ℕ → ℕ → ℚ) (p : FinancialProfile)
    (pl : RetirementPlan) (n : ℕ) :
    ∀ (g : NpRandomState) (succ : ℕ) (finals : List ℚ),
      (mcTrials gauss p pl 0 n g succ finals).2.1
        = finals ++ List.replicate n (mcDetAccum p pl) := by
  induction n with
  | zero => intro g succ finals; simp [mcTrials]
  | succ n ih =>
    intro g succ finals
    simp only [mcTrials, mcAccumYears_vol_zero]
    rw [ih]
    simp [mcDetAccum, List.replicate_succ]

/-- C2 (amended).  Each trial of `monte_carlo_retirement_analysis`
performs `target_retirement_age − current_age` yearly steps — one fewer
than `project_to_retirement`, whose loop includes the final year — and
grows the contribution after every step including the first, unlike the
deterministic projector, which first grows it only after the second
step.  Consequently with volatility 0 every trial ends at the value of
the `mcDetAccumGo` recursion (with those mechanics), for every draw
stream, profile, plan, simulation count, and incoming random state —
not, in general, at `project_to_retirement`'s final value. -/
theorem monte_carlo_trial_vol_zero (gauss : ℕ → ℕ → ℚ) (p : FinancialProfile)
    (pl : RetirementPlan) (sims : ℕ) (g : NpRandomState) :
    mcFinalValues gauss p pl 0 sims g = List.replicate sims (mcDetAccum p pl) := by
  unfold mcFinalValues
  simpa using mcTrials_vol_zero gauss p pl sims (npSeed 42 g) 0 []

/-- C2 counterexample: on a profile aged 30 with a retire-at-31 plan,
100 of assets, no contributions, a 10% return rate, and volatility 0,
the single Monte Carlo trial ends at 110 (one step), while
`project_to_retirement` ends at 121 (two steps) — the claimed exact
agreement fails. -/
theorem monte_carlo_trial_mismatch_counterexample :
    (monte_carlo_retirement_analysis gauss0 cProfileMC cPlanMC 1 0 g0).median_final_value
      ≠ (project_to_retirement cProfileMC cPlanMC).final_portfolio_value := by
  norm_num [monte_carlo_retirement_analysis, mcTrials, mcAccumYears, npNormal, npSeed,
    gauss0, g0, cProfileMC, cPlanMC, FinancialProfile.total_assets,
    RetirementPlan.calculate_required_portfolio_value, RetirementPlan.netIncomeNeeded,
    RetirementPlan.targetIncome, optTruthy, project_to_retirement, accumGo, accumStep,
    accumInit, loopCount, List.mergeSort, List.getD]

/-- From any strictly positive offset onward the loop grows expenses at
every iteration. -/
theorem accumGo_expenses_pos (p : FinancialProfile) (pl : RetirementPlan)
    (n : ℕ) : ∀ (off : ℕ) (st : AccumState), 0 < off →
    (accumGo p pl n off st).annual_expenses
      = st.annual_expenses * (1 + p.expense_growth_rate) ^ n := by
  induction n with
  | zero => intro off st _; simp [accumGo]
  | succ n ih =>
    intro off st h
    rw [accumGo, ih (off + 1) _ (Nat.succ_pos _)]
    simp only [accumStep, if_pos h]
    ring

/-- Closed form of the loop's expense variable from offset 0: grown
once per iteration after the first. -/
theorem accumGo_expenses_from_zero (p : FinancialProfile)
    (pl : RetirementPlan) (n : ℕ) (st : AccumState) :
    (accumGo p pl n 0 st).annual_expenses
      = st.annual_expenses * (1 + p.expense_growth_rate) ^ (n - 1) := by
  cases n with
  | zero => simp [accumGo]
  | succ n =>
    rw [accumGo, accumGo_expenses_pos p pl n 1 _ one_pos]
    simp [accumStep]

/-- The loop-exit expenses of `project_to_retirement` in closed form. -/
theorem project_expenses_closed (p : FinancialProfile) (pl : RetirementPlan) :
    (accumGo p pl (loopCount p pl) 0 (accumInit p)).annual_expenses
      = finalAccumExpenses p pl := by
  rw [accumGo_expenses_from_zero]
  rfl

/-- C4 counterexample: profile aged 30 with 1000 monthly expenses and a
100% expense growth rate, retire-at-31 plan with zero return: the final
portfolio is 48000 and the code divides by the grown expenses 24000,
giving 2 funded years — not the 4 predicted by dividing by the
unadjusted annual expenses 12000. -/
theorem years_funded_unadjusted_counterexample :
    (project_to_retirement cProfileGrow cPlanGrow).years_of_retirement_funded
      ≠ ⌊(project_to_retirement cProfileGrow cPlanGrow).final_portfolio_value
          / (cProfileGrow.annual_expenses - orZero cPlanGrow.estimated_social_security)⌋ := by
  norm_num [project_to_retirement, accumGo, accumStep, accumInit, loopCount, ratTrunc,
    cProfileGrow, cPlanGrow, FinancialProfile.total_assets,
    FinancialProfile.annual_expenses, FinancialProfile.total_debts, optTruthy, orZero]

/-- C4 (amended).  The funded-years field divides the final portfolio
by the net expense figure at retirement built from the *expense-growth
adjusted* annual expenses (grown once per accumulation year after the
first) minus the Social-Security offset: the count is 0 when that net
figure is ≤ 0, and otherwise (for a non-negative final portfolio, where
Python's `int` truncation agrees with the floor) equals the floor of
the quotient. -/
theorem years_funded_characterization (p : FinancialProfile) (pl : RetirementPlan) :
    (retirementNetExpenses p pl ≤ 0 →
      (project_to_retirement p pl).years_of_retirement_funded = 0) ∧
    (0 < retirementNetExpenses p pl →
      0 ≤ (project_to_retirement p pl).final_portfolio_value →
      (project_to_retirement p pl).years_of_retirement_funded
        = ⌊(project_to_retirement p pl).final_portfolio_value
            / retirementNetExpenses p pl⌋) := by
  have hexp : (if optTruthy pl.estimated_social_security then
        (accumGo p pl (loopCount p pl) 0 (accumInit p)).annual_expenses
          - pl.estimated_social_security.getD 0
      else (accumGo p pl (loopCount p pl) 0 (accumInit p)).annual_expenses)
      = retirementNetExpenses p pl := by
    rw [truthySub, project_expenses_closed]
    rfl
  constructor
  · intro h
    simp only [project_to_retirement]
    rw [hexp, if_neg (not_lt.mpr h)]
  · intro h hpv
    simp only [project_to_retirement] at hpv ⊢
    rw [hexp, if_pos h]
    unfold ratTrunc
    rw [if_pos (div_nonneg hpv h.le)]

/-- Witness for C4's amended characterization on the concrete growing
profile: 48000 / 24000 floors to 2 funded years. -/
theorem years_funded_characterization_witness :
    (project_to_retirement cProfileGrow cPlanGrow).years_of_retirement_funded
      = ⌊(project_to_retirement cProfileGrow cPlanGrow).final_portfolio_value
          / retirementNetExpenses cProfileGrow cPlanGrow⌋ := by
  refine (years_funded_characterization cProfileGrow cPlanGrow).2 ?_ ?_
  · norm_num [retirementNetExpenses, finalAccumExpenses, loopCount, orZero, optTruthy,
      cProfileGrow, cPlanGrow, FinancialProfile.annual_expenses]
  · norm_num [project_to_retirement, accumGo, accumStep, accumInit, loopCount,
      cProfileGrow, cPlanGrow, FinancialProfile.total_assets]

/-- The withdrawal loop emits at most its fuel in rows. -/
theorem withdrawLoop_length_le (rate infl ssRep : ℚ) (n : ℕ) :
    ∀ (year age : ℤ) (pv net : ℚ),
      (withdrawLoop rate infl ssRep n year age pv net).length ≤ n := by
  induction n with
  | zero => intro year age pv net; simp [withdrawLoop]
  | succ n ih =>
    intro year age pv net
    simp only [withdrawLoop]
    split_ifs
    · simp
    · simpa [List.length_cons] using Nat.succ_le_succ (ih (year + 1) (age + 1) _ _)

/-- Every reported portfolio value and net worth in the withdrawal
rows is floored at 0. -/
theorem withdrawLoop_nonneg (rate infl ssRep : ℚ) (n : ℕ) :
    ∀ (year age : ℤ) (pv net : ℚ),
      ∀ row ∈ withdrawLoop rate infl ssRep n year age pv net,
        0 ≤ row.portfolio_value ∧ 0 ≤ row.net_worth := by
  induction n with
  | zero => intro year age pv net row h; simp [withdrawLoop] at h
  | succ n ih =>
    intro year age pv net row h
    simp only [withdrawLoop] at h
    split_ifs at h
    · simp at h
      subst h
      exact ⟨le_max_left _ _, le_max_left _ _⟩
    · rcases List.mem_cons.mp h with rfl | h
      · exact ⟨le_max_left _ _, le_max_left _ _⟩
      · exact ih (year + 1) (age + 1) _ _ row h

/-- If the portfolio first reaches ≤ 0 after step `k` (within the
horizon), the loop emits exactly the `k + 1` rows through that year
and no more. -/
theorem withdrawLoop_stops_first_depletion (rate infl ssRep : ℚ) (k : ℕ) :
    ∀ (n : ℕ) (year age : ℤ) (pv net : ℚ), k < n →
      pvAfter rate infl pv net k ≤ 0 →
      (∀ j < k, 0 < pvAfter rate infl pv net j) →
      (withdrawLoop rate infl ssRep n year age pv net).length = k + 1 := by
  induction k with
  | zero =>
    intro n year age pv net hkn hdep _
    obtain ⟨m, rfl⟩ : ∃ m, n = m + 1 := ⟨n - 1, by omega⟩
    simp only [withdrawLoop]
    have h0 : pv + pv * rate - net ≤ 0 := by
      simpa [pvAfter, wNext] using hdep
    rw [if_pos h0]
    rfl
  | succ k ih =>
    intro n year age pv net hkn hdep hpos
    obtain ⟨m, rfl⟩ : ∃ m, n = m + 1 := ⟨n - 1, by omega⟩
    simp only [withdrawLoop]
    have h0 : 0 < pv + pv * rate - net := by
      simpa [pvAfter, wNext] using hpos 0 (Nat.succ_pos k)
    rw [if_neg (not_le.mpr h0)]
    have hshift : ∀ j, pvAfter rate infl (pv + pv * rate - net) (net * (1 + infl)) j
        = pvAfter rate infl pv net (j + 1) := by
      intro j
      show ((wNext rate infl)^[j + 1] (wNext rate infl (pv, net))).1 = _
      rw [← Function.iterate_succ_apply]
      rfl
    rw [List.length_cons, ih m (year + 1) (age + 1) _ _ (by omega)
      (by rw [hshift]; exact hdep)
      (fun j hj => by rw [hshift]; exact hpos (j + 1) (by omega))]

/-- C6 (amended).  For every profile, plan, and horizon `H` the
withdrawal projection emits at most `H` rows, every reported portfolio
value and net worth is floored at 0, and if the underlying portfolio
first reaches ≤ 0 after withdrawal year `k` (with `k < H`), exactly
`k + 1` rows are emitted — so no rows follow the depletion year, and
the sequence is strictly shorter than `H` whenever `k + 1 < H` (though
not when depletion falls exactly on the last requested year). -/
theorem withdrawal_termination (p : FinancialProfile) (pl : RetirementPlan)
    (H : ℕ) :
    (project_retirement_withdrawal p pl H).length ≤ H ∧
    (∀ row ∈ project_retirement_withdrawal p pl H,
      0 ≤ row.portfolio_value ∧ 0 ≤ row.net_worth) ∧
    (∀ k < H, pvAfter pl.investment_return_rate pl.inflation_rate
        (project_to_retirement p pl).final_portfolio_value (withdrawStartNet p pl) k ≤ 0 →
      (∀ j < k, 0 < pvAfter pl.investment_return_rate pl.inflation_rate
        (project_to_retirement p pl).final_portfolio_value (withdrawStartNet p pl) j) →
      (project_retirement_withdrawal p pl H).length = k + 1) := by
  refine ⟨?_, ?_, ?_⟩
  · exact withdrawLoop_length_le _ _ _ H _ _ _ _
  · exact withdrawLoop_nonneg _ _ _ H _ _ _ _
  · intro k hk hdep hpos
    exact withdrawLoop_stops_first_depletion _ _ _ k H _ _ _ _ hk hdep hpos

/-- Witness for C6's amended termination: the 12000 withdrawal need
depletes the 100 portfolio in year 0, so a 2-year horizon emits exactly
1 row. -/
theorem withdrawal_termination_witness :
    (project_retirement_withdrawal cProfileW cPlanW 2).length = 1 := by
  refine (withdrawal_termination cProfileW cPlanW 2).2.2 0 (by norm_num) ?_
    (fun j hj => absurd hj (Nat.not_lt_zero j))
  norm_num [pvAfter, wNext, withdrawStartNet, optTruthy, project_to_retirement,
    accumGo, accumStep, accumInit, loopCount, cProfileW, cPlanW,
    FinancialProfile.total_assets, FinancialProfile.annual_expenses]

/-- C6 counterexample: with a 1-year horizon and depletion in year 0,
the emitted sequence has length 1 — not fewer than the requested
horizon, although the portfolio reached ≤ 0 within it: the depletion
year's own row always appears. -/
theorem withdrawal_early_termination_counterexample :
    pvAfter cPlanW.investment_return_rate cPlanW.inflation_rate
        (project_to_retirement cProfileW cPlanW).final_portfolio_value
        (withdrawStartNet cProfileW cPlanW) 0 ≤ 0 ∧
    ¬ ((project_retirement_withdrawal cProfileW cPlanW 1).length < 1) := by
  constructor
  · norm_num [pvAfter, wNext, withdrawStartNet, optTruthy, project_to_retirement,
      accumGo, accumStep, accumInit, loopCount, cProfileW, cPlanW,
      FinancialProfile.total_assets, FinancialProfile.annual_expenses]
  · norm_num [project_retirement_withdrawal, withdrawLoop, withdrawStartNet, optTruthy,
      orZero, project_to_retirement, accumGo, accumStep, accumInit, loopCount,
      cProfileW, cPlanW, FinancialProfile.total_assets, FinancialProfile.annual_expenses,
      FinancialProfile.total_debts]
